import Mathlib

/-!
Verification of the SkyMesh satellite executive core against its
natural-language specification.

The definitions below are a shallow embedding of the C++ sources:
  src/satellite-os/core/src/power_manager.cpp
  src/satellite-os/core/src/orbital_task_manager.cpp
  src/satellite-os/core/src/health_monitor.cpp
Floating-point quantities are modelled as rationals; the constants and
comparisons are transcribed verbatim from the sources.
-/

namespace SkyMesh

/-! ## Power manager: mode state machine (power_manager.cpp) -/

/-- Power modes, in the declaration order of the PowerMode enum in
power_manager.h: NORMAL, LOW_POWER, CRITICAL, EMERGENCY, HIBERNATION. -/
inductive PowerMode
  | NORMAL
  | LOW_POWER
  | CRITICAL
  | EMERGENCY
  | HIBERNATION
deriving DecidableEq, Repr

/-- EMERGENCY_THRESHOLD constant (0.10f) from power_manager.cpp. -/
def EMERGENCY_THRESHOLD : ℚ := 1/10

/-- CRITICAL_THRESHOLD constant (0.20f) from power_manager.cpp. -/
def CRITICAL_THRESHOLD : ℚ := 2/10

/-- LOW_POWER_THRESHOLD constant (0.30f) from power_manager.cpp. -/
def LOW_POWER_THRESHOLD : ℚ := 3/10

/-- NORMAL_RECOVERY_THRESHOLD constant (0.40f) from power_manager.cpp. -/
def NORMAL_RECOVERY_THRESHOLD : ℚ := 4/10

/-- One pass of the automatic mode-transition cascade in
PowerManager::update (power_manager.cpp lines 1101-1121).  The cascade is
an else-if chain over a snapshot of the current mode:
emergency entry, critical entry, low-power entry from NORMAL, and
recovery to NORMAL from LOW_POWER or CRITICAL only. -/
def updateModeStep (soc : ℚ) (m : PowerMode) : PowerMode :=
  if soc ≤ EMERGENCY_THRESHOLD ∧ m ≠ PowerMode.EMERGENCY then
    PowerMode.EMERGENCY
  else if soc ≤ CRITICAL_THRESHOLD ∧ m ≠ PowerMode.CRITICAL ∧ m ≠ PowerMode.EMERGENCY then
    PowerMode.CRITICAL
  else if soc ≤ LOW_POWER_THRESHOLD ∧ m = PowerMode.NORMAL then
    PowerMode.LOW_POWER
  else if NORMAL_RECOVERY_THRESHOLD ≤ soc ∧ (m = PowerMode.LOW_POWER ∨ m = PowerMode.CRITICAL) then
    PowerMode.NORMAL
  else
    m

/-- The mode after one call to PowerManager::update at battery state of
charge soc.  The body of update runs its transition cascade three times
(the radiation-hardening TMR loop, power_manager.cpp lines 1094-1160),
each iteration re-reading the mode. -/
def powerUpdateMode (soc : ℚ) (m : PowerMode) : PowerMode :=
  updateModeStep soc (updateModeStep soc (updateModeStep soc m))

/-! ## Power manager: subsystem enable gate (power_manager.cpp) -/

/-- Subsystem identifiers, declaration order of the SubsystemID enum in
power_manager.h. -/
inductive SubsystemID
  | RF_SYSTEM
  | OBC
  | ADCS
  | THERMAL
  | PAYLOAD
  | SENSORS
deriving DecidableEq, Repr

/-- The POWER_REQ constants used by the admission check of
PowerManager::enableSubsystem (power_manager.cpp lines 24-32 and
149-168): RF standard 0.8 W, OBC 0.6 W, ADCS 0.75 W, THERMAL 0.5 W,
PAYLOAD 1.5 W, SENSORS 0.3 W. -/
def powerReq : SubsystemID → ℚ
  | SubsystemID.RF_SYSTEM => 8/10
  | SubsystemID.OBC => 6/10
  | SubsystemID.ADCS => 3/4
  | SubsystemID.THERMAL => 1/2
  | SubsystemID.PAYLOAD => 3/2
  | SubsystemID.SENSORS => 3/10

/-- The base wattage per subsystem used by
PowerManager::calculateCurrentConsumption (power_manager.cpp lines
596-615): RF 5 W, OBC 3 W, ADCS 4 W, THERMAL 2 W, PAYLOAD 8 W, SENSORS
1.5 W.  These are the platform figures quoted in the spec glossary. -/
def basePower : SubsystemID → ℚ
  | SubsystemID.RF_SYSTEM => 5
  | SubsystemID.OBC => 3
  | SubsystemID.ADCS => 4
  | SubsystemID.THERMAL => 2
  | SubsystemID.PAYLOAD => 8
  | SubsystemID.SENSORS => 3/2

/-- All six subsystems, as registered by the test fixture's initialize
call. -/
def allSubsystems : List SubsystemID :=
  [SubsystemID.RF_SYSTEM, SubsystemID.OBC, SubsystemID.ADCS,
   SubsystemID.THERMAL, SubsystemID.PAYLOAD, SubsystemID.SENSORS]

/-- The subsystem table of the power manager: enabled flag and power
level per subsystem (subsystemStates and subsystemPowerLevels). -/
structure PMState where
  enabled : SubsystemID → Bool
  level : SubsystemID → ℚ

/-- The state after initialize: every subsystem disabled at level 0
(power_manager.cpp lines 61-69). -/
def pmInit : PMState :=
  { enabled := fun _ => false, level := fun _ => 0 }

/-- PowerManager::calculateCurrentConsumption (lines 578-623): the sum
of basePower times the configured level over the enabled subsystems. -/
def calculateCurrentConsumption (st : PMState) : ℚ :=
  (allSubsystems.map (fun s => if st.enabled s then basePower s * st.level s else 0)).sum

/-- PowerManager::calculateAvailablePower (lines 625-645) at the
constructor-default health figures: solar 5 V times 0.2 A, both scaled
by the 0.95 panel efficiency; battery 3.7 V times 0.5 A counted since
the simulated SoC 0.75 exceeds the 0.1 cutoff; the sum scaled by the
0.95 system efficiency and the 0.98 radiation factor. -/
def calculateAvailablePower : ℚ :=
  (5 * (19/20) * ((1/5) * (19/20)) +
    (if (1/10 : ℚ) < 3/4 then (37/10) * (1/2) else 0)) * (19/20) * (49/50)

/-- The clamp of the requested power level into the unit interval
performed at the top of enableSubsystem (line 141). -/
def clamp01 (x : ℚ) : ℚ := max 0 (min 1 x)

/-- PowerManager::enableSubsystem (lines 139-186): clamp the level,
compute the required power from the powerReq table, fail when current
consumption plus required power exceeds available power, otherwise mark
the subsystem enabled at the clamped level. -/
def enableSubsystem (st : PMState) (s : SubsystemID) (lvl : ℚ) : Bool × PMState :=
  let lvl2 := clamp01 lvl
  if calculateAvailablePower < calculateCurrentConsumption st + powerReq s * lvl2 then
    (false, st)
  else
    (true,
     { enabled := fun t => if t = s then true else st.enabled t,
       level := fun t => if t = s then lvl2 else st.level t })

/-! ## Orbital task manager: statuses, heap order, execution
(orbital_task_manager.cpp) -/

/-- Task lifecycle states, declaration order of the TaskStatus enum in
orbital_task_manager.h. -/
inductive TaskStatus
  | PENDING
  | RUNNING
  | COMPLETED
  | FAILED
  | CANCELED
  | SUSPENDED
deriving DecidableEq, Repr

/-- Task priorities, declaration order of the TaskPriority enum in
orbital_task_manager.h, so CRITICAL has the smallest underlying
value and IDLE the largest. -/
inductive TaskPriority
  | CRITICAL
  | HIGH
  | NORMAL
  | LOW
  | IDLE
deriving DecidableEq, Repr

/-- The underlying integer of a TaskPriority value, as compared by the
C++ relational operators on the enum. -/
def priorityVal : TaskPriority → Nat
  | TaskPriority.CRITICAL => 0
  | TaskPriority.HIGH => 1
  | TaskPriority.NORMAL => 2
  | TaskPriority.LOW => 3
  | TaskPriority.IDLE => 4

/-- The part of an internal TaskEntry relevant to heap ordering, plus
an identifying tag. -/
structure TaskEntry where
  priority : TaskPriority
  scheduledTime : Nat
  tag : String
deriving DecidableEq, Repr

/-- TaskEntry operator less-than (orbital_task_manager.cpp lines
90-98): when priorities differ the entry with the numerically larger
priority value compares less; on equal priorities the entry with the
earlier scheduled time compares less. -/
def taskEntryLt (a b : TaskEntry) : Bool :=
  if priorityVal a.priority ≠ priorityVal b.priority then
    decide (priorityVal b.priority < priorityVal a.priority)
  else
    decide (a.scheduledTime < b.scheduledTime)

/-- TaskComparator (lines 102-106): the comparator handed to the
priority queue applies the entry comparison in reverse, comparing b
against a. -/
def taskComparator (a b : TaskEntry) : Bool :=
  taskEntryLt b a

/-- The element at the top of the priority queue: the comparator-maximal
element, i.e. the entry t such that taskComparator t y holds for no
other y in the heap; equivalently the taskEntryLt-least entry.  The fold
keeps the earlier element when neither compares below the other. -/
def heapTop : List TaskEntry → Option TaskEntry
  | [] => none
  | x :: xs => some (xs.foldl (fun m y => if taskComparator m y then y else m) x)

/-- Remove the first occurrence of an entry from the heap contents. -/
def removeFirstEntry : List TaskEntry → TaskEntry → List TaskEntry
  | [], _ => []
  | x :: xs, e => if x = e then xs else x :: removeFirstEntry xs e

/-- Pop entries one by one, bounded by a fuel argument. -/
def popOrderAux : Nat → List TaskEntry → List TaskEntry
  | 0, _ => []
  | Nat.succ n, l =>
    match heapTop l with
    | none => []
    | some t => t :: popOrderAux n (removeFirstEntry l t)

/-- The order in which the execution thread pops due entries from the
priority queue (taskExecutionThread, lines 736-754). -/
def popOrder (l : List TaskEntry) : List TaskEntry :=
  popOrderAux l.length l

/-- Entries of the priority-dispatch scenario: a LOW task tagged 1, a
NORMAL task tagged 2 and a HIGH task tagged 3, scheduled in that
order, all due. -/
def taskLowP : TaskEntry :=
  { priority := TaskPriority.LOW, scheduledTime := 0, tag := "1" }

/-- NORMAL entry of the priority-dispatch scenario. -/
def taskNormalP : TaskEntry :=
  { priority := TaskPriority.NORMAL, scheduledTime := 1, tag := "2" }

/-- HIGH entry of the priority-dispatch scenario. -/
def taskHighP : TaskEntry :=
  { priority := TaskPriority.HIGH, scheduledTime := 2, tag := "3" }

/-- Outcome of one invocation of a task payload under TMR: either a
returned boolean or a thrown exception. -/
inductive TMROutcome
  | ok (b : Bool)
  | threw
deriving DecidableEq, Repr

/-- The boolean an invocation contributes to the TMR vote: a throwing
invocation leaves its result variable false (executeWithTMR,
orbital_task_manager.cpp lines 1042-1075). -/
def tmrContrib : TMROutcome → Bool
  | TMROutcome.ok b => b
  | TMROutcome.threw => false

/-- Whether an invocation threw. -/
def tmrThrew : TMROutcome → Bool
  | TMROutcome.ok _ => false
  | TMROutcome.threw => true

/-- The value returned by executeWithTMR (lines 1077-1104): the first
agreeing pair wins; when all three contributions differ the function
returns false. -/
def executeWithTMR (o1 o2 o3 : TMROutcome) : Bool :=
  let r1 := tmrContrib o1
  let r2 := tmrContrib o2
  let r3 := tmrContrib o3
  if r1 = r2 then r1
  else if r1 = r3 then r1
  else if r2 = r3 then r2
  else false

/-- The local radiation_detected variable inside executeWithTMR: set by
every catch handler and by every vote branch that observes a
disagreement.  The function returns only the voted boolean, so this
flag never leaves the function. -/
def tmrRadiationLocal (o1 o2 o3 : TMROutcome) : Bool :=
  let caught := tmrThrew o1 || tmrThrew o2 || tmrThrew o3
  let r1 := tmrContrib o1
  let r2 := tmrContrib o2
  let r3 := tmrContrib o3
  if r1 = r2 then (caught || decide (r1 ≠ r3))
  else true

/-- The slice of the TaskResult record built by executeTask for a
radiation-protected task. -/
structure TMRExecResult where
  value : Bool
  radiationEventDetected : Bool
deriving DecidableEq, Repr

/-- executeTask on a radiation-protected task (lines 940-990): the
payload outcome is the executeWithTMR vote, and radiation_event_detected
is initialized to false at line 944 and never assigned afterwards. -/
def executeTaskTMR (o1 o2 o3 : TMROutcome) : TMRExecResult :=
  { value := executeWithTMR o1 o2 o3, radiationEventDetected := false }

/-- The fields of a TaskResult decision tracked by the retry and
timeout model. -/
structure ExecDecision where
  status : TaskStatus
  retriesUsed : Nat
  repushed : Bool
  errorMessage : String
deriving DecidableEq, Repr

/-- The post-execution bookkeeping of executeTask
(orbital_task_manager.cpp lines 990-1033).  Times are in milliseconds.
The timeout check (execution time strictly above the limit) overrides
everything and returns early, so a timed-out task is never re-queued;
otherwise success completes, and a false return either increments the
retry counter, re-pushes the entry and reports PENDING (when the used
count is below the limit), or reports terminal FAILED with the retry
message. -/
def executeTaskOutcome (success : Bool) (execMs timeoutMs retriesUsed retryLimit : Nat) :
    ExecDecision :=
  if timeoutMs < execMs then
    { status := TaskStatus.FAILED, retriesUsed := retriesUsed, repushed := false,
      errorMessage := "Task timed out (took " ++ toString execMs ++ " ms, limit: " ++
        toString timeoutMs ++ " ms)" }
  else if success then
    { status := TaskStatus.COMPLETED, retriesUsed := retriesUsed, repushed := false,
      errorMessage := "" }
  else if retriesUsed < retryLimit then
    { status := TaskStatus.PENDING, retriesUsed := retriesUsed + 1, repushed := true,
      errorMessage := "" }
  else
    { status := TaskStatus.FAILED, retriesUsed := retriesUsed, repushed := false,
      errorMessage := "Task failed after " ++ toString retriesUsed ++ " retries" }

/-! ## Orbital task manager: task map operations and status machine -/

/-- Lookup in the task map, keyed by task id. -/
def lookupStatus : List (String × TaskStatus) → String → Option TaskStatus
  | [], _ => none
  | (k, v) :: rest, tid => if k = tid then some v else lookupStatus rest tid

/-- Overwrite the status stored for a task id. -/
def setStatus : List (String × TaskStatus) → String → TaskStatus → List (String × TaskStatus)
  | [], _, _ => []
  | (k, v) :: rest, tid, st =>
    if k = tid then (k, st) :: rest else (k, v) :: setStatus rest tid st

/-- OrbitalTaskManagerImpl::getTaskStatus (lines 463-473): an id absent
from the task map yields TaskStatus FAILED, the comment in the source
reading default to failed if not found. -/
def getTaskStatus (m : List (String × TaskStatus)) (tid : String) : TaskStatus :=
  match lookupStatus m tid with
  | none => TaskStatus.FAILED
  | some st => st

/-- scheduleTask (lines 264-300): a fresh entry enters the task map
with status PENDING. -/
def scheduleTask (m : List (String × TaskStatus)) (tid : String) :
    List (String × TaskStatus) :=
  (tid, TaskStatus.PENDING) :: m

/-- OrbitalTaskManagerImpl::cancelTask (lines 385-405): an unknown id
or a RUNNING task returns false with the map unchanged; a task in any
other status becomes CANCELED and the call returns true. -/
def cancelTask (m : List (String × TaskStatus)) (tid : String) :
    Bool × List (String × TaskStatus) :=
  match lookupStatus m tid with
  | none => (false, m)
  | some st =>
    if st = TaskStatus.RUNNING then (false, m)
    else (true, setStatus m tid TaskStatus.CANCELED)

/-- Recovery strategies, declaration order of the RecoveryStrategy enum
in orbital_task_manager.h. -/
inductive RecoveryStrategy
  | RETRY
  | CHECKPOINT_RESTORE
  | ALTERNATE_ROUTINE
  | GROUND_ASSISTANCE
  | SAFE_MODE
deriving DecidableEq, Repr

/-- The status recoverTask assigns to a FAILED task per strategy
(orbital_task_manager.cpp lines 600-668): the first three re-queue as
PENDING, the last two suspend. -/
def recoveryStatus : RecoveryStrategy → TaskStatus
  | RecoveryStrategy.RETRY => TaskStatus.PENDING
  | RecoveryStrategy.CHECKPOINT_RESTORE => TaskStatus.PENDING
  | RecoveryStrategy.ALTERNATE_ROUTINE => TaskStatus.PENDING
  | RecoveryStrategy.GROUND_ASSISTANCE => TaskStatus.SUSPENDED
  | RecoveryStrategy.SAFE_MODE => TaskStatus.SUSPENDED

/-- The per-task view of the scheduler state: the stored status, plus
whether an execution of this task is currently in flight (between the
PENDING to RUNNING transition at lines 757-767 and the write of the
execution result at lines 779-786). -/
structure TaskExecState where
  status : TaskStatus
  inFlight : Bool
deriving DecidableEq, Repr

/-- The public scheduler operations affecting one task's status. -/
inductive SchedOp
  | cancelOp
  | suspendOp
  | resumeOp
  | recoverOp (strat : RecoveryStrategy)
  | execStart
  | execFinish (result : TaskStatus)
deriving DecidableEq, Repr

/-- Effect of one operation on one task, transcribed from
orbital_task_manager.cpp: cancelTask (lines 385-405) refuses only
RUNNING; suspendTask (lines 407-429) acts on RUNNING or PENDING;
resumeTask (lines 431-461) acts on SUSPENDED; recoverTask (lines
579-677) acts on FAILED; the execution thread starts a popped task only
when it is still PENDING (lines 757-767) and unconditionally writes the
execution result status when the execution it started returns (lines
779-786). -/
def applySchedOp : SchedOp → TaskExecState → TaskExecState
  | SchedOp.cancelOp, s =>
    if s.status = TaskStatus.RUNNING then s
    else { s with status := TaskStatus.CANCELED }
  | SchedOp.suspendOp, s =>
    if s.status = TaskStatus.RUNNING ∨ s.status = TaskStatus.PENDING then
      { s with status := TaskStatus.SUSPENDED }
    else s
  | SchedOp.resumeOp, s =>
    if s.status = TaskStatus.SUSPENDED then { s with status := TaskStatus.PENDING } else s
  | SchedOp.recoverOp strat, s =>
    if s.status = TaskStatus.FAILED then { s with status := recoveryStatus strat } else s
  | SchedOp.execStart, s =>
    if s.status = TaskStatus.PENDING then
      { status := TaskStatus.RUNNING, inFlight := true }
    else s
  | SchedOp.execFinish r, s =>
    if s.inFlight then { status := r, inFlight := false } else s

/-- Run a sequence of scheduler operations on a task. -/
def runSchedOps (ops : List SchedOp) (s : TaskExecState) : TaskExecState :=
  ops.foldl (fun st op => applySchedOp op st) s

/-- A freshly scheduled task: PENDING, no execution in flight. -/
def taskInit : TaskExecState :=
  { status := TaskStatus.PENDING, inFlight := false }

/-! ## Health monitor (health_monitor.cpp) -/

/-- Component health statuses, declaration order of the HealthStatus
enum in health_monitor.h. -/
inductive HealthStatus
  | NOMINAL
  | DEGRADED
  | WARNING
  | CRITICAL
  | FAILED
  | UNKNOWN
deriving DecidableEq, Repr

/-- The cascading threshold assignment in
HealthMonitorImpl::updateHealthStatus (health_monitor.cpp lines
340-357), applied to the decremented health percentage: each lower
threshold overrides the previous assignment, the comparisons are
strict, and no branch assigns NOMINAL, so at or above 70 the previous
status is kept. -/
def degradeCascade (h : ℚ) (st : HealthStatus) : HealthStatus :=
  let s1 := if h < 70 then HealthStatus.DEGRADED else st
  let s2 := if h < 40 then HealthStatus.WARNING else s1
  let s3 := if h < 20 then HealthStatus.CRITICAL else s2
  if h < 5 then HealthStatus.FAILED else s3

/-- One sampling tick for one component (health_monitor.cpp lines
335-369): the degrade branch runs only when the one-in-hundred random
draw fires; it then lowers the health percentage by 1 and applies the
cascade; otherwise health and status are untouched. -/
def updateComponentTick (fires : Bool) (h : ℚ) (st : HealthStatus) : ℚ × HealthStatus :=
  if fires then (h - 1, degradeCascade (h - 1) st) else (h, st)

/-- The status thresholds exactly as the claim states them: at least 80
NOMINAL, at least 50 DEGRADED, at least 20 WARNING, above 5 CRITICAL,
else FAILED.  Transcribed from the claim for comparison with the code,
not from the source. -/
def specStatusFromHealth (h : ℚ) : HealthStatus :=
  if 80 ≤ h then HealthStatus.NOMINAL
  else if 50 ≤ h then HealthStatus.DEGRADED
  else if 20 ≤ h then HealthStatus.WARNING
  else if 5 < h then HealthStatus.CRITICAL
  else HealthStatus.FAILED

end SkyMesh

namespace SkyMesh

/-- Claim C1, counterexample: the claim states that after reaching
EMERGENCY at SoC 0.08, an update with SoC 0.45 yields mode NORMAL.  In
the code the recovery branch fires only from LOW_POWER or CRITICAL, so
the mode remains EMERGENCY. -/
theorem powerUpdateMode_emergency_no_recovery :
    powerUpdateMode (2/25) PowerMode.CRITICAL = PowerMode.EMERGENCY ∧
    powerUpdateMode (9/20) (powerUpdateMode (2/25) PowerMode.CRITICAL) = PowerMode.EMERGENCY ∧
    powerUpdateMode (9/20) (powerUpdateMode (2/25) PowerMode.CRITICAL) ≠ PowerMode.NORMAL := by
  have e1 : updateModeStep (2/25) PowerMode.CRITICAL = PowerMode.EMERGENCY := by
    have hle : (2:ℚ)/25 ≤ EMERGENCY_THRESHOLD := by
      norm_num [EMERGENCY_THRESHOLD]
    simp [updateModeStep, hle]
  have e2 : updateModeStep (2/25) PowerMode.EMERGENCY = PowerMode.EMERGENCY := by
    simp [updateModeStep]
  have e3 : updateModeStep (9/20) PowerMode.EMERGENCY = PowerMode.EMERGENCY := by
    simp [updateModeStep]
  have h1 : powerUpdateMode (2/25) PowerMode.CRITICAL = PowerMode.EMERGENCY := by
    simp [powerUpdateMode, e1, e2]
  have h2 : powerUpdateMode (9/20) PowerMode.EMERGENCY = PowerMode.EMERGENCY := by
    simp [powerUpdateMode, e3]
  refine ⟨h1, ?_, ?_⟩
  · rw [h1, h2]
  · rw [h1, h2]
    intro h
    exact PowerMode.noConfusion h

/-- Claim C1, amended: the mode after update is a function of the SoC
and the previous mode: SoC at most 0.10 gives EMERGENCY; SoC in
(0.10, 0.20] gives CRITICAL except from EMERGENCY, which is kept; SoC in
(0.20, 0.30] gives LOW_POWER from NORMAL and otherwise keeps the mode;
SoC at least 0.40 restores NORMAL from LOW_POWER or CRITICAL only, so
EMERGENCY (and HIBERNATION) are never left by update. -/
theorem powerUpdateMode_characterization (soc : ℚ) (m : PowerMode) :
    powerUpdateMode soc m =
      if soc ≤ EMERGENCY_THRESHOLD then PowerMode.EMERGENCY
      else if soc ≤ CRITICAL_THRESHOLD then
        (if m = PowerMode.EMERGENCY then PowerMode.EMERGENCY else PowerMode.CRITICAL)
      else if soc ≤ LOW_POWER_THRESHOLD then
        (if m = PowerMode.NORMAL then PowerMode.LOW_POWER else m)
      else if NORMAL_RECOVERY_THRESHOLD ≤ soc then
        (if m = PowerMode.LOW_POWER ∨ m = PowerMode.CRITICAL then PowerMode.NORMAL else m)
      else m := by
  have c12 : EMERGENCY_THRESHOLD < CRITICAL_THRESHOLD := by
    norm_num [EMERGENCY_THRESHOLD, CRITICAL_THRESHOLD]
  have c23 : CRITICAL_THRESHOLD < LOW_POWER_THRESHOLD := by
    norm_num [CRITICAL_THRESHOLD, LOW_POWER_THRESHOLD]
  have c34 : LOW_POWER_THRESHOLD < NORMAL_RECOVERY_THRESHOLD := by
    norm_num [LOW_POWER_THRESHOLD, NORMAL_RECOVERY_THRESHOLD]
  rcases le_or_lt soc EMERGENCY_THRESHOLD with h1 | h1
  · have hs : ∀ k, updateModeStep soc k = PowerMode.EMERGENCY := by
      intro k
      cases k <;> simp [updateModeStep, h1]
    simp [powerUpdateMode, hs, h1]
  · have hn1 : ¬ soc ≤ EMERGENCY_THRESHOLD := not_le.mpr h1
    rcases le_or_lt soc CRITICAL_THRESHOLD with h2 | h2
    · have hn4 : ¬ NORMAL_RECOVERY_THRESHOLD ≤ soc := by
        intro h
        linarith
      have hs : ∀ k, updateModeStep soc k =
          if k = PowerMode.EMERGENCY then PowerMode.EMERGENCY else PowerMode.CRITICAL := by
        intro k
        cases k <;> simp [updateModeStep, hn1, h2, hn4]
      cases m <;> simp [powerUpdateMode, hs, hn1, h2]
    · have hn2 : ¬ soc ≤ CRITICAL_THRESHOLD := not_le.mpr h2
      rcases le_or_lt soc LOW_POWER_THRESHOLD with h3 | h3
      · have hn4 : ¬ NORMAL_RECOVERY_THRESHOLD ≤ soc := by
          intro h
          linarith
        have hs : ∀ k, updateModeStep soc k =
            if k = PowerMode.NORMAL then PowerMode.LOW_POWER else k := by
          intro k
          cases k <;> simp [updateModeStep, hn1, hn2, h3, hn4]
        cases m <;> simp [powerUpdateMode, hs, hn1, hn2, h3]
      · have hn3 : ¬ soc ≤ LOW_POWER_THRESHOLD := not_le.mpr h3
        rcases lt_or_le soc NORMAL_RECOVERY_THRESHOLD with h4 | h4
        · have hn4 : ¬ NORMAL_RECOVERY_THRESHOLD ≤ soc := not_le.mpr h4
          have hs : ∀ k, updateModeStep soc k = k := by
            intro k
            cases k <;> simp [updateModeStep, hn1, hn2, hn3, hn4]
          simp [powerUpdateMode, hs, hn1, hn2, hn3, hn4]
        · have hs : ∀ k, updateModeStep soc k =
              if k = PowerMode.LOW_POWER ∨ k = PowerMode.CRITICAL then PowerMode.NORMAL else k := by
            intro k
            cases k <;> simp [updateModeStep, hn1, hn2, hn3, h4]
          cases m <;> simp [powerUpdateMode, hs, hn1, hn2, hn3, h4]

/-- Claim C2 (code bug): on a 2-1 vote the TMR harness returns the
majority and raises its local radiation flag, and when all three
invocations throw it returns false; but the TaskResult field
radiation_event_detected stays false in both cases, because
executeWithTMR returns only the voted boolean and executeTask writes
false into the field once and never updates it. -/
theorem executeWithTMR_flag_dropped :
    executeWithTMR (TMROutcome.ok true) (TMROutcome.ok true) (TMROutcome.ok false) = true ∧
    tmrRadiationLocal (TMROutcome.ok true) (TMROutcome.ok true) (TMROutcome.ok false) = true ∧
    (executeTaskTMR (TMROutcome.ok true) (TMROutcome.ok true)
      (TMROutcome.ok false)).radiationEventDetected = false ∧
    executeWithTMR TMROutcome.threw TMROutcome.threw TMROutcome.threw = false ∧
    tmrRadiationLocal TMROutcome.threw TMROutcome.threw TMROutcome.threw = true ∧
    (executeTaskTMR TMROutcome.threw TMROutcome.threw
      TMROutcome.threw).radiationEventDetected = false := by
  refine ⟨rfl, rfl, rfl, rfl, rfl, rfl⟩

/-- Claim C3 (code bug): with a LOW, a NORMAL and a HIGH entry all due
in the heap, the top of the queue is the LOW entry and the pop order is
LOW, NORMAL, HIGH (tags 1, 2, 3), not HIGH, NORMAL, LOW as the spec and
the repository's own TaskPriorityHandling test expect: the entry
operator already orders lower-importance entries as smaller, and
TaskComparator reverses it a second time. -/
theorem heapPopOrder_priority_inverted :
    heapTop [taskLowP, taskNormalP, taskHighP] = some taskLowP ∧
    (popOrder [taskLowP, taskNormalP, taskHighP]).map TaskEntry.tag = ["1", "2", "3"] := by
  refine ⟨rfl, rfl⟩

/-- Claim C4: when the payload returns false without a timeout, a task
below its retry limit has its retry count incremented, is re-pushed and
reported PENDING; at or above the limit it is terminally FAILED with
the failed-after-N-retries message. -/
theorem executeTask_retry_policy (execMs timeoutMs used limit : Nat)
    (hto : execMs ≤ timeoutMs) :
    (used < limit →
      executeTaskOutcome false execMs timeoutMs used limit =
        { status := TaskStatus.PENDING, retriesUsed := used + 1, repushed := true,
          errorMessage := "" }) ∧
    (limit ≤ used →
      executeTaskOutcome false execMs timeoutMs used limit =
        { status := TaskStatus.FAILED, retriesUsed := used, repushed := false,
          errorMessage := "Task failed after " ++ toString used ++ " retries" }) := by
  have hnt : ¬ timeoutMs < execMs := not_lt.mpr hto
  constructor
  · intro hlt
    simp [executeTaskOutcome, hnt, hlt]
  · intro hge
    have hnl : ¬ used < limit := not_lt.mpr hge
    simp [executeTaskOutcome, hnt, hnl]

/-- Claim C4 witness: a failing execution of 1 ms against a 5 ms
timeout, once below the retry limit and once at it. -/
theorem executeTask_retry_policy_witness :
    executeTaskOutcome false 1 5 0 2 =
      { status := TaskStatus.PENDING, retriesUsed := 0 + 1, repushed := true,
        errorMessage := "" } ∧
    executeTaskOutcome false 1 5 2 2 =
      { status := TaskStatus.FAILED, retriesUsed := 2, repushed := false,
        errorMessage := "Task failed after " ++ toString 2 ++ " retries" } :=
  ⟨(executeTask_retry_policy 1 5 0 2 (by decide)).1 (by decide),
   (executeTask_retry_policy 1 5 2 2 (by decide)).2 (by decide)⟩

/-- Claim C5: when the measured execution time strictly exceeds the
timeout, the result is FAILED with the timeout message regardless of
the payload outcome, the retry count is untouched and the task is not
re-pushed; the check runs after the execution completed. -/
theorem executeTask_timeout_override (success : Bool) (execMs timeoutMs used limit : Nat)
    (h : timeoutMs < execMs) :
    executeTaskOutcome success execMs timeoutMs used limit =
      { status := TaskStatus.FAILED, retriesUsed := used, repushed := false,
        errorMessage := "Task timed out (took " ++ toString execMs ++ " ms, limit: " ++
          toString timeoutMs ++ " ms)" } := by
  simp [executeTaskOutcome, h]

/-- Claim C5 witness: a successful 10 ms execution against a 5 ms
timeout is overridden to FAILED. -/
theorem executeTask_timeout_override_witness :
    executeTaskOutcome true 10 5 0 3 =
      { status := TaskStatus.FAILED, retriesUsed := 0, repushed := false,
        errorMessage := "Task timed out (took " ++ toString 10 ++ " ms, limit: " ++
          toString 5 ++ " ms)" } :=
  executeTask_timeout_override true 10 5 0 3 (by decide)

/-- Claim C6, counterexample: on a fresh manager, enabling PAYLOAD at
level 1 succeeds although the platform base-power figure of 8 W exceeds
the available power of roughly 2.56 W: the admission check uses the
POWER_REQ table (PAYLOAD 1.5 W), not the platform figures the claim
names. -/
theorem enableSubsystem_base_power_mismatch :
    (enableSubsystem pmInit SubsystemID.PAYLOAD 1).1 = true ∧
    calculateAvailablePower < calculateCurrentConsumption pmInit +
      basePower SubsystemID.PAYLOAD * 1 := by
  have hcons : calculateCurrentConsumption pmInit = 0 := by
    simp [calculateCurrentConsumption, allSubsystems, pmInit]
  have havail : calculateAvailablePower = 1025031/400000 := by
    norm_num [calculateAvailablePower]
  constructor
  · have hgate : ¬ (calculateAvailablePower <
        calculateCurrentConsumption pmInit + powerReq SubsystemID.PAYLOAD * clamp01 1) := by
      rw [hcons, havail]
      norm_num [powerReq, clamp01]
    simp [enableSubsystem, hgate]
  · rw [hcons, havail]
    norm_num [basePower]

/-- Claim C6, amended: for a level in the unit interval, enableSubsystem
succeeds exactly when current consumption plus the POWER_REQ figure of
the subsystem times the level stays within the available power; on
success the subsystem is marked enabled at that level, and on failure
the subsystem table is left untouched. -/
theorem enableSubsystem_gate (st : PMState) (s : SubsystemID) (lvl : ℚ)
    (h0 : 0 ≤ lvl) (h1 : lvl ≤ 1) :
    ((enableSubsystem st s lvl).1 = true ↔
      calculateCurrentConsumption st + powerReq s * lvl ≤ calculateAvailablePower) ∧
    ((enableSubsystem st s lvl).1 = true →
      ((enableSubsystem st s lvl).2.enabled s = true ∧
        (enableSubsystem st s lvl).2.level s = lvl)) ∧
    ((enableSubsystem st s lvl).1 = false → (enableSubsystem st s lvl).2 = st) := by
  have hcl : clamp01 lvl = lvl := by
    unfold clamp01
    rw [min_eq_right h1, max_eq_right h0]
  rcases lt_or_le calculateAvailablePower
      (calculateCurrentConsumption st + powerReq s * lvl) with hgt | hle
  · have hc : calculateAvailablePower <
        calculateCurrentConsumption st + powerReq s * lvl := hgt
    refine ⟨?_, ?_, ?_⟩
    · simp [enableSubsystem, hcl, hc, not_le.mpr hgt]
    · intro h
      exact absurd h (by simp [enableSubsystem, hcl, hc])
    · intro _
      simp [enableSubsystem, hcl, hc]
  · have hc : ¬ (calculateAvailablePower <
        calculateCurrentConsumption st + powerReq s * lvl) := not_lt.mpr hle
    refine ⟨?_, ?_, ?_⟩
    · simp [enableSubsystem, hcl, hc, hle]
    · intro _
      refine ⟨?_, ?_⟩
      · simp [enableSubsystem, hcl, hc]
      · simp [enableSubsystem, hcl, hc]
    · intro h
      exact absurd h (by simp [enableSubsystem, hcl, hc])

/-- Claim C6 witness: on a fresh manager, enabling RF at level one half
succeeds, and the gate inequality matches. -/
theorem enableSubsystem_gate_witness :
    ((enableSubsystem pmInit SubsystemID.RF_SYSTEM (1/2)).1 = true ↔
      calculateCurrentConsumption pmInit + powerReq SubsystemID.RF_SYSTEM * (1/2) ≤
        calculateAvailablePower) ∧
    ((enableSubsystem pmInit SubsystemID.RF_SYSTEM (1/2)).1 = true →
      ((enableSubsystem pmInit SubsystemID.RF_SYSTEM (1/2)).2.enabled SubsystemID.RF_SYSTEM = true ∧
        (enableSubsystem pmInit SubsystemID.RF_SYSTEM (1/2)).2.level SubsystemID.RF_SYSTEM = 1/2)) ∧
    ((enableSubsystem pmInit SubsystemID.RF_SYSTEM (1/2)).1 = false →
      (enableSubsystem pmInit SubsystemID.RF_SYSTEM (1/2)).2 = pmInit) :=
  enableSubsystem_gate pmInit SubsystemID.RF_SYSTEM (1/2) (by norm_num) (by norm_num)

/-- Claim C7: cancel of a freshly scheduled (PENDING) task returns true
and the status then reads CANCELED; cancel of a RUNNING task returns
false and leaves the task map unchanged. -/
theorem cancelTask_contract (m : List (String × TaskStatus)) (tid : String) :
    ((cancelTask (scheduleTask m tid) tid).1 = true ∧
      getTaskStatus (cancelTask (scheduleTask m tid) tid).2 tid = TaskStatus.CANCELED) ∧
    (lookupStatus m tid = some TaskStatus.RUNNING → cancelTask m tid = (false, m)) := by
  refine ⟨⟨?_, ?_⟩, ?_⟩
  · simp [cancelTask, scheduleTask, lookupStatus]
  · simp [cancelTask, scheduleTask, lookupStatus, setStatus, getTaskStatus]
  · intro h
    simp [cancelTask, h]

/-- Claim C7 witness: schedule then cancel on an empty map, and cancel
of a RUNNING task. -/
theorem cancelTask_contract_witness :
    ((cancelTask (scheduleTask [] "t") "t").1 = true ∧
      getTaskStatus (cancelTask (scheduleTask [] "t") "t").2 "t" = TaskStatus.CANCELED) ∧
    cancelTask [("r", TaskStatus.RUNNING)] "r" = (false, [("r", TaskStatus.RUNNING)]) :=
  ⟨(cancelTask_contract [] "t").1,
   (cancelTask_contract [("r", TaskStatus.RUNNING)] "r").2 rfl⟩

/-- Claim C8, counterexample: the operation sequence schedule, start,
finish-successfully, cancel is reachable and moves the task from
COMPLETED to CANCELED, because cancelTask refuses only RUNNING tasks;
so COMPLETED is not a stable terminal state. -/
theorem completed_task_leaves_completed :
    (runSchedOps [SchedOp.execStart, SchedOp.execFinish TaskStatus.COMPLETED]
      taskInit).status = TaskStatus.COMPLETED ∧
    (runSchedOps [SchedOp.execStart, SchedOp.execFinish TaskStatus.COMPLETED,
      SchedOp.cancelOp] taskInit).status = TaskStatus.CANCELED := by
  refine ⟨rfl, rfl⟩

/-- Claim C8, amended: while no execution of the task is in flight, no
operation moves a task out of CANCELED; and the only operation that
moves a task out of COMPLETED is cancelTask, which moves it to
CANCELED. -/
theorem canceled_stable_completed_cancelable (op : SchedOp) (st : TaskStatus) :
    (st = TaskStatus.CANCELED →
      applySchedOp op { status := st, inFlight := false } =
        { status := TaskStatus.CANCELED, inFlight := false }) ∧
    (st = TaskStatus.COMPLETED →
      applySchedOp op { status := st, inFlight := false } =
        { status := TaskStatus.COMPLETED, inFlight := false } ∨
      (op = SchedOp.cancelOp ∧
        applySchedOp op { status := st, inFlight := false } =
          { status := TaskStatus.CANCELED, inFlight := false })) := by
  cases op <;> cases st <;> simp [applySchedOp, recoveryStatus]

/-- Claim C8 amended witness: cancel on a CANCELED task keeps CANCELED,
and cancel on a COMPLETED task is the cancel move. -/
theorem canceled_stable_completed_cancelable_witness :
    applySchedOp SchedOp.cancelOp { status := TaskStatus.CANCELED, inFlight := false } =
      { status := TaskStatus.CANCELED, inFlight := false } ∧
    (applySchedOp SchedOp.cancelOp { status := TaskStatus.COMPLETED, inFlight := false } =
      { status := TaskStatus.COMPLETED, inFlight := false } ∨
      (SchedOp.cancelOp = SchedOp.cancelOp ∧
        applySchedOp SchedOp.cancelOp { status := TaskStatus.COMPLETED, inFlight := false } =
          { status := TaskStatus.CANCELED, inFlight := false })) :=
  ⟨(canceled_stable_completed_cancelable SchedOp.cancelOp TaskStatus.CANCELED).1 rfl,
   (canceled_stable_completed_cancelable SchedOp.cancelOp TaskStatus.COMPLETED).2 rfl⟩

/-- Claim C9, counterexample: when the degrade branch fires on a
component at health 46, the code assigns DEGRADED at the decremented
health 45, whereas the claim's thresholds put health 45 at WARNING; the
code thresholds are strict comparisons against 70, 40, 20 and 5, not
the claimed 80, 50, 20 and 5, and NOMINAL is never assigned. -/
theorem healthStatus_thresholds_mismatch :
    (updateComponentTick true 46 HealthStatus.NOMINAL).2 = HealthStatus.DEGRADED ∧
    (updateComponentTick true 46 HealthStatus.NOMINAL).1 = 45 ∧
    specStatusFromHealth 45 = HealthStatus.WARNING ∧
    HealthStatus.DEGRADED ≠ HealthStatus.WARNING := by
  refine ⟨?_, ?_, ?_, ?_⟩
  · norm_num [updateComponentTick, degradeCascade]
  · norm_num [updateComponentTick]
  · norm_num [specStatusFromHealth]
  · intro h
    exact HealthStatus.noConfusion h

/-- Claim C9, amended: a sampling tick changes a component only when
the one-in-hundred draw fires; it then lowers health by 1 and sets the
status by the strict thresholds of the code at the decremented health:
below 5 FAILED, in [5, 20) CRITICAL, in [20, 40) WARNING, in [40, 70)
DEGRADED, and at or above 70 the previous status is kept, so NOMINAL is
never assigned. -/
theorem updateComponentTick_characterization (h : ℚ) (st : HealthStatus) :
    updateComponentTick false h st = (h, st) ∧
    (updateComponentTick true h st).1 = h - 1 ∧
    (h - 1 < 5 → (updateComponentTick true h st).2 = HealthStatus.FAILED) ∧
    (5 ≤ h - 1 → h - 1 < 20 → (updateComponentTick true h st).2 = HealthStatus.CRITICAL) ∧
    (20 ≤ h - 1 → h - 1 < 40 → (updateComponentTick true h st).2 = HealthStatus.WARNING) ∧
    (40 ≤ h - 1 → h - 1 < 70 → (updateComponentTick true h st).2 = HealthStatus.DEGRADED) ∧
    (70 ≤ h - 1 → (updateComponentTick true h st).2 = st) := by
  refine ⟨by simp [updateComponentTick], by simp [updateComponentTick], ?_, ?_, ?_, ?_, ?_⟩
  · intro h5
    simp [updateComponentTick, degradeCascade, h5]
  · intro h5 h20
    have n5 : ¬ (h - 1 < 5) := not_lt.mpr h5
    simp [updateComponentTick, degradeCascade, n5, h20]
  · intro h20 h40
    have n5 : ¬ (h - 1 < 5) := not_lt.mpr (by linarith)
    have n20 : ¬ (h - 1 < 20) := not_lt.mpr h20
    simp [updateComponentTick, degradeCascade, n5, n20, h40]
  · intro h40 h70
    have n5 : ¬ (h - 1 < 5) := not_lt.mpr (by linarith)
    have n20 : ¬ (h - 1 < 20) := not_lt.mpr (by linarith)
    have n40 : ¬ (h - 1 < 40) := not_lt.mpr h40
    simp [updateComponentTick, degradeCascade, n5, n20, n40, h70]
  · intro h70
    have n5 : ¬ (h - 1 < 5) := not_lt.mpr (by linarith)
    have n20 : ¬ (h - 1 < 20) := not_lt.mpr (by linarith)
    have n40 : ¬ (h - 1 < 40) := not_lt.mpr (by linarith)
    have n70 : ¬ (h - 1 < 70) := not_lt.mpr h70
    simp [updateComponentTick, degradeCascade, n5, n20, n40, n70]

/-- Claim C9 amended witness: health 31 degrades into the WARNING band,
health 3 into FAILED, and health 100 keeps its previous status. -/
theorem updateComponentTick_characterization_witness :
    (updateComponentTick true 31 HealthStatus.NOMINAL).2 = HealthStatus.WARNING ∧
    (updateComponentTick true 3 HealthStatus.NOMINAL).2 = HealthStatus.FAILED ∧
    (updateComponentTick true 100 HealthStatus.NOMINAL).2 = HealthStatus.NOMINAL :=
  ⟨(updateComponentTick_characterization 31 HealthStatus.NOMINAL).2.2.2.2.1
      (by norm_num) (by norm_num),
   (updateComponentTick_characterization 3 HealthStatus.NOMINAL).2.2.1 (by norm_num),
   (updateComponentTick_characterization 100 HealthStatus.NOMINAL).2.2.2.2.2.2
      (by norm_num)⟩

/-- Claim C10: getTaskStatus on an id absent from the task map returns
FAILED, the same value it returns for a task whose stored status is
FAILED, with no distinct not-found indication. -/
theorem getTaskStatus_missing_failed (m : List (String × TaskStatus)) (tid : String) :
    (lookupStatus m tid = none → getTaskStatus m tid = TaskStatus.FAILED) ∧
    (lookupStatus m tid = some TaskStatus.FAILED → getTaskStatus m tid = TaskStatus.FAILED) := by
  constructor <;> intro h <;> simp [getTaskStatus, h]

/-- Claim C10 witness: a missing id and a genuinely FAILED task both
read FAILED. -/
theorem getTaskStatus_missing_failed_witness :
    getTaskStatus [("a", TaskStatus.FAILED)] "b" = TaskStatus.FAILED ∧
    getTaskStatus [("a", TaskStatus.FAILED)] "a" = TaskStatus.FAILED :=
  ⟨(getTaskStatus_missing_failed [("a", TaskStatus.FAILED)] "b").1 rfl,
   (getTaskStatus_missing_failed [("a", TaskStatus.FAILED)] "a").2 rfl⟩

end SkyMesh
